import Mathlib

/-!
Verification of the `WarpModel` export wrapper from `predict.ipynb` of the
yolov8-seg export repository.

The wrapper's `forward` runs the wrapped segmentation model, permutes the
prediction tensor from (batch, channels, anchors) to (batch, anchors,
channels), slices it into box / class-score / mask-coefficient parts along
the last axis, inserts an all-ones column between boxes and class scores,
concatenates everything back along the last axis and returns the result
together with the untouched prototype tensor.

Tensors are embedded shallowly as a shape (explicit dimension fields), a
dtype, a device, and a total data function on `Nat` indices; only in-bounds
entries are meaningful, so tensor equality is stated as `Tensor3.Equiv`
(equal shapes, dtype, device, and in-bounds entries).
-/

namespace Yolov8SegExport

/-- Element dtype of a tensor (the precisions the notebook touches). -/
inductive DType where
  | float32
  | float16
  | float64
deriving DecidableEq

/-- Compute device of a tensor. -/
inductive Device where
  | cpu
  | cuda (index : Nat)
deriving DecidableEq

/-- A rank-3 tensor: shape `(d0, d1, d2)`, dtype, device, and a total data
function; entries at indices outside the shape are irrelevant. -/
structure Tensor3 where
  d0 : Nat
  d1 : Nat
  d2 : Nat
  dtype : DType
  device : Device
  data : Nat → Nat → Nat → ℚ

/-- A rank-4 tensor: shape `(d0, d1, d2, d3)`, dtype, device, data. -/
structure Tensor4 where
  d0 : Nat
  d1 : Nat
  d2 : Nat
  d3 : Nat
  dtype : DType
  device : Device
  data : Nat → Nat → Nat → Nat → ℚ

/-- Extensional tensor equality: same shape, dtype and device, and equal
entries at every in-bounds index. -/
def Tensor3.Equiv (s t : Tensor3) : Prop :=
  s.d0 = t.d0 ∧ s.d1 = t.d1 ∧ s.d2 = t.d2 ∧ s.dtype = t.dtype ∧
    s.device = t.device ∧
    ∀ i j k, i < s.d0 → j < s.d1 → k < s.d2 → s.data i j k = t.data i j k

/-- `t.permute((0, 2, 1))`: swap the last two axes of a rank-3 tensor. -/
def Tensor3.permute021 (t : Tensor3) : Tensor3 :=
  ⟨t.d0, t.d2, t.d1, t.dtype, t.device, fun i j k => t.data i k j⟩

/-- `t[:, :, lo:hi]` for nonnegative bounds, with Python slice semantics:
both bounds clamp to the axis length, and an empty slice results when
`hi ≤ lo`; out-of-range bounds never raise. -/
def Tensor3.sliceLast (t : Tensor3) (lo hi : Nat) : Tensor3 :=
  ⟨t.d0, t.d1, min hi t.d2 - min lo t.d2, t.dtype, t.device,
    fun i j k => t.data i j (min lo t.d2 + k)⟩

/-- `torch.ones((b, n, 1), device=dev, dtype=dt)`. -/
def ones3 (b n : Nat) (dev : Device) (dt : DType) : Tensor3 :=
  ⟨b, n, 1, dt, dev, fun _ _ _ => 1⟩

/-- The compatibility `torch.cat(..., dim=2)` demands of each pair of its
arguments: equal sizes on the non-concatenated axes, equal dtype, equal
device. -/
def catCompat2 (a b : Tensor3) : Prop :=
  a.d0 = b.d0 ∧ a.d1 = b.d1 ∧ a.dtype = b.dtype ∧ a.device = b.device

instance (a b : Tensor3) : Decidable (catCompat2 a b) :=
  inferInstanceAs (Decidable (_ ∧ _ ∧ _ ∧ _))

/-- The tensor `torch.cat((t1, t2, t3, t4), dim=2)` builds once its
compatibility checks pass: last-axis sizes add up and the entry at last-axis
index `k` comes from whichever argument the offset `k` falls into. -/
def catVal (t1 t2 t3 t4 : Tensor3) : Tensor3 :=
  ⟨t1.d0, t1.d1, t1.d2 + t2.d2 + t3.d2 + t4.d2, t1.dtype, t1.device,
    fun i j k =>
      if k < t1.d2 then t1.data i j k
      else if k < t1.d2 + t2.d2 then t2.data i j (k - t1.d2)
      else if k < t1.d2 + t2.d2 + t3.d2 then t3.data i j (k - (t1.d2 + t2.d2))
      else t4.data i j (k - (t1.d2 + t2.d2 + t3.d2))⟩

/-- `torch.cat((t1, t2, t3, t4), dim=2)`: `none` models the error raised on
mismatched non-concatenated sizes, dtypes or devices. -/
def cat4dim2 (t1 t2 t3 t4 : Tensor3) : Option Tensor3 :=
  if catCompat2 t1 t2 ∧ catCompat2 t1 t3 ∧ catCompat2 t1 t4 then
    some (catVal t1 t2 t3 t4)
  else none

/-- Delete the single index `i` along the last axis (the `np.delete`-style
inverse of inserting one column at position `i`). -/
def Tensor3.deleteLast (t : Tensor3) (i : Nat) : Tensor3 :=
  ⟨t.d0, t.d1, t.d2 - 1, t.dtype, t.device,
    fun a b k => if k < i then t.data a b k else t.data a b (k + 1)⟩

/-- One parameter of the wrapped network; only the flag the notebook's
`__init__` writes is tracked. -/
structure Param where
  requires_grad : Bool

/-- Mutable state of the wrapped `ultralytics` network that
`WarpModel.__init__` configures: its parameters, train/eval flag, float
precision and fusion status. -/
structure NNModel where
  params : List Param
  training : Bool
  dtype : DType
  fused : Bool

/-- The state updates `WarpModel.__init__` applies to the freshly loaded,
deep-copied network, line by line: `p.requires_grad = False` for every
parameter, then `.eval()`, `.float()`, `.fuse()`.  The loading itself
(`YOLO(weights)`, `deepcopy`, `.to(device)`) yields the arbitrary input
state `loaded`.  Modelled from the spec for the framework calls: `eval`,
`float` and `fuse` are torch/ultralytics methods whose effect (training
flag cleared, float32 precision, fused layers) the spec describes as a
"loaded, frozen, fused" model. -/
def initNet (loaded : NNModel) : NNModel :=
  let frozen : NNModel :=
    { loaded with params := loaded.params.map fun p => { p with requires_grad := false } }
  let evaled : NNModel := { frozen with training := false }
  let floated : NNModel := { evaled with dtype := DType.float32 }
  { floated with fused := true }

/-- The `WarpModel` wrapper after `__init__`: the class-count field
`self.nc`, the configured network state `self.model`'s bookkeeping, and the
network's forward computation `x ↦ (preds, protos)` (the call
`self.model(x)` of the external, pretrained segmentation model). -/
structure WarpModel where
  nc : Nat
  net : NNModel
  model : Tensor4 → Tensor3 × Tensor4

/-- `preds = self.model(x)[0]; preds = preds.permute((0, 2, 1))`. -/
def WarpModel.permuted (w : WarpModel) (x : Tensor4) : Tensor3 :=
  (w.model x).1.permute021

/-- `boxes = preds[:, :, :4]`. -/
def WarpModel.boxes (w : WarpModel) (x : Tensor4) : Tensor3 :=
  (w.permuted x).sliceLast 0 4

/-- `classes = preds[:, :, 4 : self.nc + 4]`. -/
def WarpModel.classes (w : WarpModel) (x : Tensor4) : Tensor3 :=
  (w.permuted x).sliceLast 4 (w.nc + 4)

/-- `masks = preds[:, :, self.nc + 4 :]`. -/
def WarpModel.masks (w : WarpModel) (x : Tensor4) : Tensor3 :=
  (w.permuted x).sliceLast (w.nc + 4) (w.permuted x).d2

/-- `torch.ones((boxes.shape[0], boxes.shape[1], 1), device=boxes.device,
dtype=boxes.dtype)`. -/
def WarpModel.onesCol (w : WarpModel) (x : Tensor4) : Tensor3 :=
  ones3 (w.boxes x).d0 (w.boxes x).d1 (w.boxes x).device (w.boxes x).dtype

/-- The detections tensor `forward` builds:
`torch.cat((boxes, ones, classes, masks), dim=2)`. -/
def WarpModel.det (w : WarpModel) (x : Tensor4) : Tensor3 :=
  catVal (w.boxes x) (w.onesCol x) (w.classes x) (w.masks x)

/-- `WarpModel.forward`: run the wrapped model, permute, slice, insert the
ones column, concatenate, and pair with the untouched prototypes.  `none`
models a failing `torch.cat`. -/
def WarpModel.forward (w : WarpModel) (x : Tensor4) : Option (Tensor3 × Tensor4) :=
  match cat4dim2 (w.boxes x) (w.onesCol x) (w.classes x) (w.masks x) with
  | some det => some (det, (w.model x).2)
  | none => none

/-- The state visible across a `forward` call: the wrapper object and the
caller's input tensor. -/
structure World where
  warp : WarpModel
  input : Tensor4

/-- A `forward` call as a state transformer.  The Python body binds only
local names (`preds`, `protos`, `boxes`, `classes`, `masks`) and every
tensor operation it uses (`permute`, slicing, `torch.ones`, `torch.cat`)
allocates a fresh tensor; no statement writes `self` or `x`, so the state
threaded through the call is returned as it came in, alongside the computed
result. -/
def runForward (s : World) : World × Option (Tensor3 × Tensor4) :=
  (s, s.warp.forward s.input)

/-- Modelled from the spec: the output shapes of the external pretrained
YOLOv8 segmentation model, which is not part of this repository.  On a
`(B, 3, 640, 640)` input batch it returns a prediction tensor of shape
`(B, 4 + nc + nm, 8400)` and a prototype tensor of shape
`(B, 32, 160, 160)` (the notebook's recorded output shows
`(4, 8400, 117)` / `(4, 32, 160, 160)` for `nc = 80`, `nm = 32`). -/
def yoloSegShapes (nc nm : Nat) (model : Tensor4 → Tensor3 × Tensor4) : Prop :=
  ∀ x : Tensor4, x.d1 = 3 → x.d2 = 640 → x.d3 = 640 →
    (model x).1.d0 = x.d0 ∧ (model x).1.d1 = 4 + nc + nm ∧
    (model x).1.d2 = 8400 ∧
    (model x).2.d0 = x.d0 ∧ (model x).2.d1 = 32 ∧
    (model x).2.d2 = 160 ∧ (model x).2.d3 = 160

/-! ### Helper lemmas -/

theorem compat_boxes_ones (w : WarpModel) (x : Tensor4) :
    catCompat2 (w.boxes x) (w.onesCol x) :=
  ⟨rfl, rfl, rfl, rfl⟩

theorem compat_boxes_classes (w : WarpModel) (x : Tensor4) :
    catCompat2 (w.boxes x) (w.classes x) :=
  ⟨rfl, rfl, rfl, rfl⟩

theorem compat_boxes_masks (w : WarpModel) (x : Tensor4) :
    catCompat2 (w.boxes x) (w.masks x) :=
  ⟨rfl, rfl, rfl, rfl⟩

theorem forward_eq (w : WarpModel) (x : Tensor4) :
    w.forward x = some (w.det x, (w.model x).2) := by
  unfold WarpModel.forward cat4dim2
  rw [if_pos ⟨compat_boxes_ones w x, compat_boxes_classes w x, compat_boxes_masks w x⟩]
  rfl

theorem permuted_dims (w : WarpModel) (x : Tensor4) :
    (w.permuted x).d0 = (w.model x).1.d0 ∧ (w.permuted x).d1 = (w.model x).1.d2 ∧
      (w.permuted x).d2 = (w.model x).1.d1 :=
  ⟨rfl, rfl, rfl⟩

theorem boxes_d2 (w : WarpModel) (x : Tensor4) :
    (w.boxes x).d2 = min 4 (w.model x).1.d1 := by
  simp [WarpModel.boxes, Tensor3.sliceLast, WarpModel.permuted, Tensor3.permute021]

theorem classes_d2 (w : WarpModel) (x : Tensor4) :
    (w.classes x).d2 = min (w.nc + 4) (w.model x).1.d1 - min 4 (w.model x).1.d1 :=
  rfl

theorem masks_d2 (w : WarpModel) (x : Tensor4) :
    (w.masks x).d2 = (w.model x).1.d1 - min (w.nc + 4) (w.model x).1.d1 := by
  simp [WarpModel.masks, Tensor3.sliceLast, WarpModel.permuted, Tensor3.permute021]

theorem det_d2 (w : WarpModel) (x : Tensor4) :
    (w.det x).d2 = (w.model x).1.d1 + 1 := by
  have hb := boxes_d2 w x
  have hc := classes_d2 w x
  have hm := masks_d2 w x
  show (w.boxes x).d2 + (w.onesCol x).d2 + (w.classes x).d2 + (w.masks x).d2 = _
  have ho : (w.onesCol x).d2 = 1 := rfl
  omega

theorem det_d01 (w : WarpModel) (x : Tensor4) :
    (w.det x).d0 = (w.model x).1.d0 ∧ (w.det x).d1 = (w.model x).1.d2 :=
  ⟨rfl, rfl⟩

theorem catVal_data_first (t1 t2 t3 t4 : Tensor3) (i j k : Nat) (h : k < t1.d2) :
    (catVal t1 t2 t3 t4).data i j k = t1.data i j k := by
  simp only [catVal]
  rw [if_pos h]

theorem catVal_data_second (t1 t2 t3 t4 : Tensor3) (i j k : Nat)
    (h1 : t1.d2 ≤ k) (h2 : k < t1.d2 + t2.d2) :
    (catVal t1 t2 t3 t4).data i j k = t2.data i j (k - t1.d2) := by
  simp only [catVal]
  rw [if_neg (by omega), if_pos h2]

theorem catVal_data_third (t1 t2 t3 t4 : Tensor3) (i j k : Nat)
    (h1 : t1.d2 + t2.d2 ≤ k) (h2 : k < t1.d2 + t2.d2 + t3.d2) :
    (catVal t1 t2 t3 t4).data i j k = t3.data i j (k - (t1.d2 + t2.d2)) := by
  simp only [catVal]
  rw [if_neg (by omega), if_neg (by omega), if_pos h2]

theorem catVal_data_fourth (t1 t2 t3 t4 : Tensor3) (i j k : Nat)
    (h1 : t1.d2 + t2.d2 + t3.d2 ≤ k) :
    (catVal t1 t2 t3 t4).data i j k = t4.data i j (k - (t1.d2 + t2.d2 + t3.d2)) := by
  simp only [catVal]
  rw [if_neg (by omega), if_neg (by omega), if_neg (by omega)]

theorem sliceLast_data (t : Tensor3) (lo hi i j k : Nat) :
    (t.sliceLast lo hi).data i j k = t.data i j (min lo t.d2 + k) :=
  rfl

theorem permute021_data (t : Tensor3) (i j k : Nat) :
    t.permute021.data i j k = t.data i k j :=
  rfl

theorem boxes_data (w : WarpModel) (x : Tensor4) (b a k : Nat) :
    (w.boxes x).data b a k =
      (w.model x).1.data b (min 0 (w.model x).1.d1 + k) a :=
  rfl

theorem classes_data (w : WarpModel) (x : Tensor4) (b a k : Nat) :
    (w.classes x).data b a k =
      (w.model x).1.data b (min 4 (w.model x).1.d1 + k) a :=
  rfl

theorem masks_data (w : WarpModel) (x : Tensor4) (b a k : Nat) :
    (w.masks x).data b a k =
      (w.model x).1.data b (min (w.nc + 4) (w.model x).1.d1 + k) a :=
  rfl

/-! ### Concrete fixtures used by the witness theorems -/

/-- An arbitrary pre-initialization network state. -/
def loadedNet : NNModel :=
  { params := [⟨true⟩, ⟨true⟩, ⟨false⟩], training := true,
    dtype := DType.float64, fused := false }

/-- A concrete rank-3 prediction tensor with distinguishable entries. -/
def mkPreds (b c a : Nat) : Tensor3 :=
  ⟨b, c, a, DType.float32, Device.cpu, fun i j k => (i * 100000 + j * 100 + k : ℚ)⟩

/-- A concrete rank-4 prototype tensor. -/
def mkProtos (b : Nat) : Tensor4 :=
  ⟨b, 32, 160, 160, DType.float32, Device.cpu, fun i j k l => (i + j + k + l : ℚ)⟩

/-- A stand-in for the external segmentation model with the yolov8l-seg
shapes: 4 + 80 + 32 = 116 prediction channels over 8400 anchors. -/
def yoloLike : Tensor4 → Tensor3 × Tensor4 :=
  fun x => (mkPreds x.d0 116 8400, mkProtos x.d0)

/-- A stand-in model whose prediction tensor has only 2 channels, fewer
than `nc + 4`. -/
def narrowModel : Tensor4 → Tensor3 × Tensor4 :=
  fun x => (mkPreds x.d0 2 7, mkProtos x.d0)

/-- The wrapper as the notebook constructs it: `WarpModel("yolov8l-seg.pt", 80)`. -/
def wMain : WarpModel :=
  { nc := 80, net := initNet loadedNet, model := yoloLike }

/-- A second wrapper with the same class count and model function. -/
def wTwin : WarpModel :=
  { nc := 80, net := loadedNet, model := yoloLike }

/-- A wrapper around the narrow model. -/
def wNarrow : WarpModel :=
  { nc := 80, net := initNet loadedNet, model := narrowModel }

/-- A concrete `(4, 3, 640, 640)` input batch. -/
def xBatch : Tensor4 :=
  ⟨4, 3, 640, 640, DType.float32, Device.cpu, fun _ _ _ _ => 0⟩

/-- The ambient state of a call `wMain.forward xBatch`. -/
def worldMain : World :=
  { warp := wMain, input := xBatch }

/-! ### Claims -/

/-- C1: with the wrapper constructed with `nc = 80` around a model with the
yolov8l-seg output shapes, every `(B, 3, 640, 640)` input batch yields a
detections tensor of shape `(B, 8400, 85 + nm)` and a prototypes tensor of
shape `(B, 32, 160, 160)`; with the `nm = 32` mask coefficients of
yolov8l-seg the detections shape is `(B, 8400, 117)`. -/
theorem C1_output_shapes (w : WarpModel) (x : Tensor4) (nm : Nat)
    (hnc : w.nc = 80) (hm : yoloSegShapes 80 nm w.model)
    (hx1 : x.d1 = 3) (hx2 : x.d2 = 640) (hx3 : x.d3 = 640) :
    ∃ det protos, w.forward x = some (det, protos) ∧
      det.d0 = x.d0 ∧ det.d1 = 8400 ∧ det.d2 = 85 + nm ∧
      protos.d0 = x.d0 ∧ protos.d1 = 32 ∧ protos.d2 = 160 ∧ protos.d3 = 160 := by
  obtain ⟨h0, h1, h2, p0, p1, p2, p3⟩ := hm x hx1 hx2 hx3
  refine ⟨w.det x, (w.model x).2, forward_eq w x, ?_, ?_, ?_, p0, p1, p2, p3⟩
  · rw [(det_d01 w x).1, h0]
  · rw [(det_d01 w x).2, h2]
  · rw [det_d2 w x, h1]
    omega

/-- C1 witness: the theorem applied to the notebook's configuration
(`nc = 80`, `nm = 32`, batch of four 3×640×640 images). -/
theorem C1_output_shapes_witness :
    (wMain.nc = 80 ∧ yoloSegShapes 80 32 wMain.model ∧
      xBatch.d1 = 3 ∧ xBatch.d2 = 640 ∧ xBatch.d3 = 640) ∧
    (∃ det protos, wMain.forward xBatch = some (det, protos) ∧
      det.d0 = xBatch.d0 ∧ det.d1 = 8400 ∧ det.d2 = 85 + 32 ∧
      protos.d0 = xBatch.d0 ∧ protos.d1 = 32 ∧ protos.d2 = 160 ∧
      protos.d3 = 160) :=
  ⟨⟨rfl, fun _ _ _ _ => ⟨rfl, rfl, rfl, rfl, rfl, rfl, rfl⟩, rfl, rfl, rfl⟩,
    C1_output_shapes wMain xBatch 32 rfl
      (fun _ _ _ _ => ⟨rfl, rfl, rfl, rfl, rfl, rfl, rfl⟩) rfl rfl rfl⟩

/-- C2: when the underlying prediction tensor has `4 + nc + nm` channels,
the detections tensor carries, along its last axis and in this order: the 4
box coordinates, one constant channel, the `nc` class scores, then the `nm`
mask coefficients, each entry taken from the underlying prediction
tensor. -/
theorem C2_channel_order (w : WarpModel) (x : Tensor4) (nm : Nat)
    (h : (w.model x).1.d1 = 4 + w.nc + nm) :
    w.forward x = some (w.det x, (w.model x).2) ∧
    ∀ b a,
      (∀ k, k < 4 → (w.det x).data b a k = (w.model x).1.data b k a) ∧
      (w.det x).data b a 4 = 1 ∧
      (∀ j, j < w.nc →
        (w.det x).data b a (5 + j) = (w.model x).1.data b (4 + j) a) ∧
      (∀ j, j < nm →
        (w.det x).data b a (5 + w.nc + j) =
          (w.model x).1.data b (4 + w.nc + j) a) := by
  have hb : (w.boxes x).d2 = 4 := by
    rw [boxes_d2]
    omega
  have ho : (w.onesCol x).d2 = 1 := rfl
  have hc : (w.classes x).d2 = w.nc := by
    rw [classes_d2]
    omega
  refine ⟨forward_eq w x, fun b a => ⟨?_, ?_, ?_, ?_⟩⟩
  · intro k hk
    simp only [WarpModel.det]
    rw [catVal_data_first _ _ _ _ _ _ _ (by omega), boxes_data]
    have e : min 0 (w.model x).1.d1 + k = k := by omega
    rw [e]
  · simp only [WarpModel.det]
    rw [catVal_data_second _ _ _ _ _ _ _ (by omega) (by omega)]
    rfl
  · intro j hj
    simp only [WarpModel.det]
    rw [catVal_data_third _ _ _ _ _ _ _ (by omega) (by omega), classes_data]
    have e1 : 5 + j - ((w.boxes x).d2 + (w.onesCol x).d2) = j := by omega
    rw [e1]
    have e2 : min 4 (w.model x).1.d1 + j = 4 + j := by omega
    rw [e2]
  · intro j hj
    simp only [WarpModel.det]
    rw [catVal_data_fourth _ _ _ _ _ _ _ (by omega), masks_data]
    have e1 : 5 + w.nc + j -
        ((w.boxes x).d2 + (w.onesCol x).d2 + (w.classes x).d2) = j := by
      omega
    rw [e1]
    have e2 : min (w.nc + 4) (w.model x).1.d1 + j = 4 + w.nc + j := by omega
    rw [e2]

/-- C2 witness: the channel layout at the concrete wrapper, input and
`nm = 32`. -/
theorem C2_channel_order_witness :
    ((wMain.model xBatch).1.d1 = 4 + wMain.nc + 32) ∧
    (wMain.forward xBatch = some (wMain.det xBatch, (wMain.model xBatch).2) ∧
    ∀ b a,
      (∀ k, k < 4 →
        (wMain.det xBatch).data b a k = (wMain.model xBatch).1.data b k a) ∧
      (wMain.det xBatch).data b a 4 = 1 ∧
      (∀ j, j < wMain.nc →
        (wMain.det xBatch).data b a (5 + j) =
          (wMain.model xBatch).1.data b (4 + j) a) ∧
      (∀ j, j < 32 →
        (wMain.det xBatch).data b a (5 + wMain.nc + j) =
          (wMain.model xBatch).1.data b (4 + wMain.nc + j) a)) :=
  ⟨rfl, C2_channel_order wMain xBatch 32 rfl⟩

/-- C3: deleting the inserted constant channel at index 4 along the last
axis of the detections output recovers exactly the underlying prediction
tensor permuted from (batch, channels, anchors) to
(batch, anchors, channels). -/
theorem C3_roundtrip (w : WarpModel) (x : Tensor4)
    (h4 : 4 ≤ (w.model x).1.d1) :
    w.forward x = some (w.det x, (w.model x).2) ∧
    ((w.det x).deleteLast 4).Equiv ((w.model x).1.permute021) := by
  have hb : (w.boxes x).d2 = 4 := by
    rw [boxes_d2]
    omega
  have ho : (w.onesCol x).d2 = 1 := rfl
  have hc := classes_d2 w x
  have hm := masks_d2 w x
  have hd2 := det_d2 w x
  refine ⟨forward_eq w x, rfl, rfl, ?_, rfl, rfl, ?_⟩
  · show (w.det x).d2 - 1 = (w.model x).1.d1
    omega
  · intro i j k hi hj hk
    have hdel : ((w.det x).deleteLast 4).d2 = (w.det x).d2 - 1 := rfl
    rw [hdel] at hk
    show (if k < 4 then (w.det x).data i j k else (w.det x).data i j (k + 1)) =
      (w.model x).1.data i k j
    by_cases hk4 : k < 4
    · rw [if_pos hk4]
      simp only [WarpModel.det]
      rw [catVal_data_first _ _ _ _ _ _ _ (by omega), boxes_data]
      have e : min 0 (w.model x).1.d1 + k = k := by omega
      rw [e]
    · rw [if_neg hk4]
      simp only [WarpModel.det]
      by_cases hmid : k < min (w.nc + 4) (w.model x).1.d1
      · rw [catVal_data_third _ _ _ _ _ _ _ (by omega) (by omega), classes_data]
        have e1 : k + 1 - ((w.boxes x).d2 + (w.onesCol x).d2) = k - 4 := by
          omega
        rw [e1]
        have e2 : min 4 (w.model x).1.d1 + (k - 4) = k := by omega
        rw [e2]
      · rw [catVal_data_fourth _ _ _ _ _ _ _ (by omega), masks_data]
        have e1 : k + 1 -
            ((w.boxes x).d2 + (w.onesCol x).d2 + (w.classes x).d2) =
            k - min (w.nc + 4) (w.model x).1.d1 := by
          omega
        rw [e1]
        have e2 : min (w.nc + 4) (w.model x).1.d1 +
            (k - min (w.nc + 4) (w.model x).1.d1) = k := by
          omega
        rw [e2]

/-- C3 witness: the round-trip at the concrete wrapper and input. -/
theorem C3_roundtrip_witness :
    4 ≤ (wMain.model xBatch).1.d1 ∧
    (wMain.forward xBatch = some (wMain.det xBatch, (wMain.model xBatch).2) ∧
      ((wMain.det xBatch).deleteLast 4).Equiv
        ((wMain.model xBatch).1.permute021)) :=
  ⟨by decide, C3_roundtrip wMain xBatch (by decide)⟩

/-- C4: the second component of `forward`'s result is exactly the prototype
tensor produced by the wrapped model, passed through with no modification
of values or shape. -/
theorem C4_protos_passthrough (w : WarpModel) (x : Tensor4) :
    (w.forward x).map Prod.snd = some (w.model x).2 := by
  rw [forward_eq]
  rfl

/-- C5: a `forward` call has no side effect beyond computing its result:
the wrapper's fields (`nc`, the network state, the model function) and the
caller's input tensor come out of the call exactly as they went in. -/
theorem C5_no_side_effects (s : World) :
    (runForward s).1.warp.nc = s.warp.nc ∧
    (runForward s).1.warp.net = s.warp.net ∧
    (runForward s).1.warp.model = s.warp.model ∧
    (runForward s).1.input = s.input :=
  ⟨rfl, rfl, rfl, rfl⟩

/-- C6: after `__init__`, every parameter of the wrapped network has
`requires_grad = false`, the network is in eval mode, float32 precision and
fused; and a `forward` call leaves the network state untouched, so this
frozen state is preserved across calls. -/
theorem C6_frozen_after_init (loaded : NNModel) (s : World) :
    (∀ p ∈ (initNet loaded).params, p.requires_grad = false) ∧
    (initNet loaded).training = false ∧
    (initNet loaded).dtype = DType.float32 ∧
    (initNet loaded).fused = true ∧
    (runForward s).1.warp.net = s.warp.net := by
  refine ⟨?_, rfl, rfl, rfl, rfl⟩
  intro p hp
  simp only [initNet, List.mem_map] at hp
  obtain ⟨q, hq, rfl⟩ := hp
  rfl

/-- C6 witness: the frozen state at the concrete loaded network and
world. -/
theorem C6_frozen_after_init_witness :
    (∀ p ∈ (initNet loadedNet).params, p.requires_grad = false) ∧
    (initNet loadedNet).training = false ∧
    (initNet loadedNet).dtype = DType.float32 ∧
    (initNet loadedNet).fused = true ∧
    (runForward worldMain).1.warp.net = worldMain.warp.net :=
  C6_frozen_after_init loadedNet worldMain

/-- C7: `forward` raises no error of its own: for every wrapper and input
(the wrapped model's call, by the embedding's types, returns a rank-3
prediction tensor and a prototype tensor), the permute, the three slices,
the ones creation and the concatenation all succeed, and `forward` returns
a result. -/
theorem C7_no_own_errors (w : WarpModel) (x : Tensor4) :
    (w.forward x).isSome = true := by
  rw [forward_eq]
  rfl

/-- C8: `forward` is stateless and deterministic: its result depends only
on the input and the wrapper's frozen fields (`nc` and the model), and a
call changes no state, so repeated calls return equal results. -/
theorem C8_stateless_deterministic (w v : WarpModel) (x : Tensor4) (s : World)
    (hnc : w.nc = v.nc) (hmod : w.model = v.model) :
    w.forward x = v.forward x ∧
    (runForward s).2 = (runForward (runForward s).1).2 ∧
    (runForward (runForward s).1).1 = s := by
  obtain ⟨nc1, net1, m1⟩ := w
  obtain ⟨nc2, net2, m2⟩ := v
  dsimp only at hnc hmod
  subst hnc
  subst hmod
  exact ⟨rfl, rfl, rfl⟩

/-- C8 witness: two wrappers sharing `nc` and model function (but not the
bookkeeping state) agree at the concrete input, and the repeated call
leaves the world fixed. -/
theorem C8_stateless_deterministic_witness :
    (wMain.nc = wTwin.nc ∧ wMain.model = wTwin.model) ∧
    (wMain.forward xBatch = wTwin.forward xBatch ∧
      (runForward worldMain).2 = (runForward (runForward worldMain).1).2 ∧
      (runForward (runForward worldMain).1).1 = worldMain) :=
  ⟨⟨rfl, rfl⟩, C8_stateless_deterministic wMain wTwin xBatch worldMain rfl rfl⟩

/-- C9: the ones column is created with the batch size, anchor count, dtype
and device of the boxes slice, all four concatenated tensors are pairwise
`torch.cat`-compatible (no dtype, device or leading-dimension mixing), and
the constant channel lands at index 4 of the detections tensor with value 1
everywhere. -/
theorem C9_ones_channel (w : WarpModel) (x : Tensor4)
    (h4 : 4 ≤ (w.model x).1.d1) :
    (w.onesCol x).d0 = (w.boxes x).d0 ∧
    (w.onesCol x).d1 = (w.boxes x).d1 ∧
    (w.onesCol x).d2 = 1 ∧
    (w.onesCol x).dtype = (w.boxes x).dtype ∧
    (w.onesCol x).device = (w.boxes x).device ∧
    (∀ i j k, (w.onesCol x).data i j k = 1) ∧
    catCompat2 (w.boxes x) (w.onesCol x) ∧
    catCompat2 (w.boxes x) (w.classes x) ∧
    catCompat2 (w.boxes x) (w.masks x) ∧
    ∀ b a, (w.det x).data b a 4 = 1 := by
  have hb : (w.boxes x).d2 = 4 := by
    rw [boxes_d2]
    omega
  have ho : (w.onesCol x).d2 = 1 := rfl
  refine ⟨rfl, rfl, rfl, rfl, rfl, fun i j k => rfl, compat_boxes_ones w x,
    compat_boxes_classes w x, compat_boxes_masks w x, ?_⟩
  intro b a
  simp only [WarpModel.det]
  rw [catVal_data_second _ _ _ _ _ _ _ (by omega) (by omega)]
  rfl

/-- C9 witness: the ones-column facts at the concrete wrapper and input. -/
theorem C9_ones_channel_witness :
    4 ≤ (wMain.model xBatch).1.d1 ∧
    ((wMain.onesCol xBatch).d0 = (wMain.boxes xBatch).d0 ∧
    (wMain.onesCol xBatch).d1 = (wMain.boxes xBatch).d1 ∧
    (wMain.onesCol xBatch).d2 = 1 ∧
    (wMain.onesCol xBatch).dtype = (wMain.boxes xBatch).dtype ∧
    (wMain.onesCol xBatch).device = (wMain.boxes xBatch).device ∧
    (∀ i j k, (wMain.onesCol xBatch).data i j k = 1) ∧
    catCompat2 (wMain.boxes xBatch) (wMain.onesCol xBatch) ∧
    catCompat2 (wMain.boxes xBatch) (wMain.classes xBatch) ∧
    catCompat2 (wMain.boxes xBatch) (wMain.masks xBatch) ∧
    ∀ b a, (wMain.det xBatch).data b a 4 = 1) :=
  ⟨by decide, C9_ones_channel wMain xBatch (by decide)⟩

/-- C10: when the prediction tensor has fewer than `nc + 4` channels, the
three slices still succeed with truncated or empty extents (Python slicing
clamps), the concatenation still succeeds, and `forward` returns a
detections tensor of width `channels + 1`, smaller than the well-formed
`nc + 5 + nm` layout — a silently malformed output rather than an error. -/
theorem C10_truncated_slices (w : WarpModel) (x : Tensor4)
    (h : (w.model x).1.d1 < w.nc + 4) :
    (w.boxes x).d2 = min 4 (w.model x).1.d1 ∧
    (w.classes x).d2 = (w.model x).1.d1 - min 4 (w.model x).1.d1 ∧
    (w.masks x).d2 = 0 ∧
    w.forward x = some (w.det x, (w.model x).2) ∧
    (w.det x).d2 = (w.model x).1.d1 + 1 ∧
    (w.det x).d2 < w.nc + 5 := by
  have hb := boxes_d2 w x
  have hc := classes_d2 w x
  have hm := masks_d2 w x
  have hd := det_d2 w x
  exact ⟨hb, by omega, by omega, forward_eq w x, hd, by omega⟩

/-- C10 witness: the wrapper around a 2-channel prediction tensor (fewer
than `nc + 4 = 84`) still produces a (3-wide, malformed) detections
tensor. -/
theorem C10_truncated_slices_witness :
    (wNarrow.model xBatch).1.d1 < wNarrow.nc + 4 ∧
    ((wNarrow.boxes xBatch).d2 = min 4 (wNarrow.model xBatch).1.d1 ∧
    (wNarrow.classes xBatch).d2 =
      (wNarrow.model xBatch).1.d1 - min 4 (wNarrow.model xBatch).1.d1 ∧
    (wNarrow.masks xBatch).d2 = 0 ∧
    wNarrow.forward xBatch =
      some (wNarrow.det xBatch, (wNarrow.model xBatch).2) ∧
    (wNarrow.det xBatch).d2 = (wNarrow.model xBatch).1.d1 + 1 ∧
    (wNarrow.det xBatch).d2 < wNarrow.nc + 5) :=
  ⟨by decide, C10_truncated_slices wNarrow xBatch (by decide)⟩

end Yolov8SegExport
